import Mathlib

/-!
Verification of the streaming medallion pipeline
(src/dataflow/streaming_medallion_pipeline.py).

The transformation core is embedded shallowly:

* Python/JSON values (dicts produced by `json.loads`, plus the values the
  pipeline adds to them) are the inductive type `PyVal`.  Numbers are
  modelled as exact rationals `ℚ`; Python treats `bool` as a number
  (`True == 1`, `False == 0`), which `asNum` reproduces.
* A Python expression that may raise is an `Except Unit` computation; a
  `try ... except: return False` wrapper maps `Except.error` to `false`.
* `bytes.decode` and `json.loads` are library calls (not part of this
  repository); a raw message is abstracted by their outcomes on its
  payload (`RawMessage`), with `.error ()` standing for the exception the
  call raises.  The bronze stage's `x.decode("utf-8")` installs no
  handler, so its failure propagates (`decode_stage`); `json.loads` is
  wrapped in `try/except` by `parse_json`.
-/

/-- A Python value as produced by `json.loads` and manipulated by the
pipeline: `None`, booleans, numbers (exact rationals), strings, lists and
string-keyed dicts. -/
inductive PyVal where
  | none : PyVal
  | bool : Bool → PyVal
  | num : ℚ → PyVal
  | str : String → PyVal
  | list : List PyVal → PyVal
  | dict : List (String × PyVal) → PyVal

/-- `v is None` in Python. -/
def isNone : PyVal → Bool
  | PyVal.none => true
  | _ => false

/-- The numeric view of a Python value, as used by arithmetic and
comparisons: numbers are themselves, booleans count as `1`/`0`
(Python's `bool` is a subtype of `int`), everything else is not a number
(comparing or dividing it with a number raises `TypeError`). -/
def asNum : PyVal → Option ℚ
  | PyVal.num q => some q
  | PyVal.bool b => some (if b then 1 else 0)
  | _ => Option.none

/-- First binding of key `k` in a dict's field list. -/
def getKey : List (String × PyVal) → String → Option PyVal
  | [], _ => Option.none
  | (k', v) :: rest, k => if k' = k then some v else getKey rest k

/-- `d.get(k)` on a dict: the stored value, or `None` when absent. -/
def getKeyD (fields : List (String × PyVal)) (k : String) : PyVal :=
  match getKey fields k with
  | some v => v
  | Option.none => PyVal.none

/-- Whether the field list binds key `k`. -/
def hasKey : List (String × PyVal) → String → Bool
  | [], _ => false
  | (k', _) :: rest, k => k' = k || hasKey rest k

/-- `d[k] = v` on a dict's field list: overwrite an existing binding in
place, otherwise append at the end (Python dict insertion order). -/
def setKey (fields : List (String × PyVal)) (k : String) (v : PyVal) :
    List (String × PyVal) :=
  if hasKey fields k then
    fields.map (fun p => if p.1 = k then (k, v) else p)
  else
    fields ++ [(k, v)]

/-- `record[k]`: raises `KeyError` when the key is absent and `TypeError`
when the value is not a dict. -/
def subscript (v : PyVal) (k : String) : Except Unit PyVal :=
  match v with
  | PyVal.dict fields =>
      match getKey fields k with
      | some x => Except.ok x
      | Option.none => Except.error ()
  | _ => Except.error ()

/-- `record[k] = x`: assignment raises `TypeError` on a non-dict. -/
def dictSet (v : PyVal) (k : String) (x : PyVal) : Except Unit PyVal :=
  match v with
  | PyVal.dict fields => Except.ok (PyVal.dict (setKey fields k x))
  | _ => Except.error ()

/-- `lo rel₁ v and v ≤ hi` — one chained range comparison
(`lo < v <= hi` when `strict`, else `lo <= v <= hi`), continuing with
`rest` when it holds, answering `false` when it fails, and raising
(`TypeError`) when `v` is not numeric.  This is the shape of each
`if not(...): return False` guard in `is_valid_record`. -/
def checkRange (lo : ℚ) (strict : Bool) (v : PyVal) (hi : ℚ)
    (rest : Except Unit Bool) : Except Unit Bool :=
  match asNum v with
  | some q =>
      if (if strict then lo < q else lo ≤ q) ∧ q ≤ hi then rest
      else Except.ok false
  | Option.none => Except.error ()

/-- The body of `is_valid_record`'s `try` block.  `record.get` on a
non-dict (that is not `None`, which is tested first) raises
`AttributeError`, hence the `Except.error` fallthrough. -/
def is_valid_core (record : PyVal) : Except Unit Bool :=
  match record with
  | PyVal.none => Except.ok false
  | PyVal.dict fields =>
      let p_id := getKeyD fields "patient_id"
      let hr := getKeyD fields "heart_rate"
      let spo2 := getKeyD fields "spo2"
      let temp := getKeyD fields "temperature"
      let bp_systolic := getKeyD fields "bp_systolic"
      let bp_diastolic := getKeyD fields "bp_diastolic"
      if isNone p_id || isNone hr || isNone spo2 || isNone temp ||
          isNone bp_systolic || isNone bp_diastolic then
        Except.ok false
      else
        checkRange 0 true spo2 100
          (checkRange 60 false hr 120
            (checkRange 36 false temp 39
              (checkRange 90 false bp_systolic 140
                (checkRange 60 false bp_diastolic 90 (Except.ok true)))))
  | _ => Except.error ()

/-- `is_valid_record`: the body wrapped in `try ... except Exception:
return False`. -/
def is_valid_record (record : PyVal) : Bool :=
  match is_valid_core record with
  | Except.ok b => b
  | Except.error _ => false

/-- `parse_json`: `json.loads` wrapped in `try ... except: return None`.
The library call's outcome on the already-UTF-8-decoded string is the
abstract input: `.ok v` when the string parses to the value `v`,
`.error ()` on any JSON parse failure.  The UTF-8 decoding itself
happens earlier, in the unguarded bronze stage (`decode_stage`), and is
not caught here. -/
def parse_json (loadResult : Except Unit PyVal) : PyVal :=
  match loadResult with
  | Except.ok v => v
  | Except.error _ => PyVal.none

/-- A raw transport message, abstracted by the outcomes of the two
library calls applied to its byte payload: the outer `Except` is
`x.decode("utf-8")` (`.error ()` when the payload is not valid UTF-8,
on which `bytes.decode` raises `UnicodeDecodeError`); the inner
`Except Unit PyVal` is `json.loads` on the decoded string (`.error ()`
on any JSON parse failure). -/
structure RawMessage where
  decodeUtf8 : Except Unit (Except Unit PyVal)

/-- The bronze stage `beam.Map(lambda x: x.decode("utf-8"))` over a
bundle of messages.  The lambda installs no exception handler, so a
`UnicodeDecodeError` on any message propagates and fails the bundle
instead of yielding a record for it. -/
def decode_stage : List RawMessage → Except Unit (List (Except Unit PyVal))
  | [] => Except.ok []
  | m :: rest =>
      match m.decodeUtf8 with
      | Except.ok s =>
          match decode_stage rest with
          | Except.ok ss => Except.ok (s :: ss)
          | Except.error e => Except.error e
      | Except.error e => Except.error e

/-- A byte message whose payload is not valid UTF-8: `decode("utf-8")`
raises on it before any `try` block is reached. -/
def malformedBytesMsg : RawMessage := ⟨Except.error ()⟩

/-- The risk-level bucketing applied to a risk score, evaluated in order,
first match wins — the `if`/`elif`/`else` ladder of `enrich_record`
(Python literals `0.3` and `0.6` are the exact rationals `3/10`, `6/10`). -/
def risk_level_of (risk_score : ℚ) : String :=
  if risk_score < 3 / 10 then "Low"
  else if risk_score < 6 / 10 then "Medium"
  else "High"

/-- `enrich_record`: reads `heart_rate`, `temperature`, `spo2` from the
record (raising on a missing key, a non-dict, or a non-numeric operand —
undefined-behaviour cases that validation excludes), stores
`risk_score = (hr/200)*0.4 + (temp/40)*0.3 + (1 - spo2/100)*0.3`, then
stores the bucketed `risk_level`; the comparisons read back the
`risk_score` entry just stored, which holds exactly `risk_score`.  The
source assigns into its argument dict in place and returns that same
object; the embedding is value-semantic, so the returned `PyVal` is the
argument's post-assignment state, and the pre-call argument value is
left untouched. -/
def enrich_record (record : PyVal) : Except Unit PyVal :=
  match subscript record "heart_rate", subscript record "temperature",
      subscript record "spo2" with
  | Except.ok hrv, Except.ok tv, Except.ok sv =>
      match asNum hrv, asNum tv, asNum sv with
      | some hr, some temp, some spo2 =>
          let risk_score : ℚ :=
            (hr / 200) * (2 / 5) + (temp / 40) * (3 / 10) +
              (1 - spo2 / 100) * (3 / 10)
          match dictSet record "risk_score" (PyVal.num risk_score) with
          | Except.ok record1 =>
              if risk_score < 3 / 10 then
                dictSet record1 "risk_level" (PyVal.str "Low")
              else if risk_score < 6 / 10 then
                dictSet record1 "risk_level" (PyVal.str "Medium")
              else
                dictSet record1 "risk_level" (PyVal.str "High")
          | Except.error e => Except.error e
      | _, _, _ => Except.error ()
  | _, _, _ => Except.error ()

/-- `sum(record[k] for record in records)`: integer `0` plus each field
value in order; raises on a missing key, a non-dict member or a
non-numeric addend. -/
def sumField : List PyVal → String → Except Unit ℚ
  | [], _ => Except.ok 0
  | r :: rest, k =>
      match subscript r k with
      | Except.ok v =>
          match asNum v with
          | some q =>
              match sumField rest k with
              | Except.ok s => Except.ok (q + s)
              | Except.error e => Except.error e
          | Option.none => Except.error ()
      | Except.error e => Except.error e

/-- `[record[k] for record in records]`. -/
def listField : List PyVal → String → Except Unit (List PyVal)
  | [], _ => Except.ok []
  | r :: rest, k =>
      match subscript r k with
      | Except.ok v =>
          match listField rest k with
          | Except.ok vs => Except.ok (v :: vs)
          | Except.error e => Except.error e
      | Except.error e => Except.error e

/-- `s == v` where `s` is a Python string and `v` arbitrary: `==` between
a string and a non-string is `False`, never an error.  Used for
`"High" in risk_levels`. -/
def pyEqStr (v : PyVal) (s : String) : Bool :=
  match v with
  | PyVal.str t => t = s
  | _ => false

/-- `aggregated_records`: reduces one `(patient_id, records)` group into
the gold-layer summary dict.  `count = len(records)`; each average is the
field sum divided by `count` (`ZeroDivisionError`, hence `Except.error`,
when the group is empty); `risk_level` is `"High"` if any member has it,
else `"Medium"` if any member has it, else `"Low"`. -/
def aggregated_records (key_values : PyVal × List PyVal) :
    Except Unit PyVal :=
  let patient_id := key_values.1
  let records := key_values.2
  let count := records.length
  match sumField records "heart_rate", sumField records "spo2",
      sumField records "temperature", sumField records "bp_systolic",
      sumField records "bp_diastolic", listField records "risk_level" with
  | Except.ok s_hr, Except.ok s_spo2, Except.ok s_temp, Except.ok s_sys,
      Except.ok s_dia, Except.ok risk_levels =>
      if count = 0 then Except.error ()
      else
        let risk_level : String :=
          if risk_levels.any (fun v => pyEqStr v "High") then "High"
          else if risk_levels.any (fun v => pyEqStr v "Medium") then "Medium"
          else "Low"
        Except.ok (PyVal.dict
          [("patient_id", patient_id),
           ("count", PyVal.num count),
           ("avg_heart_rate", PyVal.num (s_hr / count)),
           ("avg_spo2", PyVal.num (s_spo2 / count)),
           ("avg_temperature", PyVal.num (s_temp / count)),
           ("avg_bp_systolic", PyVal.num (s_sys / count)),
           ("avg_bp_diastolic", PyVal.num (s_dia / count)),
           ("risk_level", PyVal.str risk_level)])
  | _, _, _, _, _, _ => Except.error ()

/-- The silver path up to the validity filter:
`beam.Map(parse_json)` then `beam.Filter(is_valid_record)` over the
decoded messages of a bundle. -/
def valid_records (msgs : List (Except Unit PyVal)) : List PyVal :=
  (msgs.map parse_json).filter is_valid_record

/-- The silver path including `beam.Map(enrich_record)`. -/
def silver_records (msgs : List (Except Unit PyVal)) :
    List (Except Unit PyVal) :=
  (valid_records msgs).map enrich_record

/-- An enriched record as produced by the silver layer: the six reading
fields plus the two derived fields, laid out as the dict the pipeline
carries. -/
structure Enriched where
  patient_id : PyVal
  heart_rate : ℚ
  spo2 : ℚ
  temperature : ℚ
  bp_systolic : ℚ
  bp_diastolic : ℚ
  risk_score : ℚ
  risk_level : String

/-- The dict carrying an enriched record. -/
def Enriched.toPy (e : Enriched) : PyVal :=
  PyVal.dict
    [("patient_id", e.patient_id),
     ("heart_rate", PyVal.num e.heart_rate),
     ("spo2", PyVal.num e.spo2),
     ("temperature", PyVal.num e.temperature),
     ("bp_systolic", PyVal.num e.bp_systolic),
     ("bp_diastolic", PyVal.num e.bp_diastolic),
     ("risk_score", PyVal.num e.risk_score),
     ("risk_level", PyVal.str e.risk_level)]

/-- The most severe level present, under `High > Medium > Low` — the
specification's description of the aggregate `risk_level`. -/
def maxSeverity (levels : List String) : String :=
  if "High" ∈ levels then "High"
  else if "Medium" ∈ levels then "Medium"
  else "Low"

/-- Observation: the numeric value stored under key `k` of a record. -/
def getNumField (r : PyVal) (k : String) : Option ℚ :=
  match subscript r k with
  | Except.ok v => asNum v
  | Except.error _ => Option.none

/-- Observation: the string stored under key `k` of a record. -/
def getStrField (r : PyVal) (k : String) : Option String :=
  match subscript r k with
  | Except.ok (PyVal.str s) => some s
  | _ => Option.none

/-- Observation: the numeric value stored under key `k` of the record an
`Except` computation produced (`Option.none` when it raised). -/
def resultNumField (res : Except Unit PyVal) (k : String) : Option ℚ :=
  match res with
  | Except.ok r => getNumField r k
  | Except.error _ => Option.none

/-- Observation: the string stored under key `k` of the record an
`Except` computation produced. -/
def resultStrField (res : Except Unit PyVal) (k : String) : Option String :=
  match res with
  | Except.ok r => getStrField r k
  | Except.error _ => Option.none

/-- The specification's reading of a valid record (§4.2): a dict whose
six required fields are present and non-null and whose five numeric
fields lie in the closed ranges (`spo2`'s lower bound strict). -/
def validRecordSpec (r : PyVal) : Prop :=
  ∃ fields, r = PyVal.dict fields ∧
    getKeyD fields "patient_id" ≠ PyVal.none ∧
    (∃ hr, asNum (getKeyD fields "heart_rate") = some hr ∧
      60 ≤ hr ∧ hr ≤ 120) ∧
    (∃ spo2, asNum (getKeyD fields "spo2") = some spo2 ∧
      0 < spo2 ∧ spo2 ≤ 100) ∧
    (∃ temp, asNum (getKeyD fields "temperature") = some temp ∧
      36 ≤ temp ∧ temp ≤ 39) ∧
    (∃ sys, asNum (getKeyD fields "bp_systolic") = some sys ∧
      90 ≤ sys ∧ sys ≤ 140) ∧
    (∃ dia, asNum (getKeyD fields "bp_diastolic") = some dia ∧
      60 ≤ dia ∧ dia ≤ 90)

/-! ### Worked examples from the specification -/

/-- A nominal record (all other fields mid-range), parameterized by
`spo2` — the boundary probe of §8. -/
def nominalRecord (spo2 : ℚ) : PyVal :=
  PyVal.dict
    [("patient_id", PyVal.str "P1"), ("heart_rate", PyVal.num 80),
     ("spo2", PyVal.num spo2), ("temperature", PyVal.num 37),
     ("bp_systolic", PyVal.num 120), ("bp_diastolic", PyVal.num 80)]

/-- The worked example: `heart_rate=100, temperature=37, spo2=95`. -/
def exampleReading : PyVal :=
  PyVal.dict
    [("patient_id", PyVal.str "P1"), ("heart_rate", PyVal.num 100),
     ("spo2", PyVal.num 95), ("temperature", PyVal.num 37),
     ("bp_systolic", PyVal.num 120), ("bp_diastolic", PyVal.num 80)]

/-- First member of the aggregation example: heart rate 80, level Low. -/
def exampleEnrichedLow : Enriched :=
  ⟨PyVal.str "P1", 80, 95, 37, 120, 80, 4235 / 10000, "Low"⟩

/-- Second member of the aggregation example: heart rate 100, level
High. -/
def exampleEnrichedHigh : Enriched :=
  ⟨PyVal.str "P1", 100, 95, 37, 120, 80, 65 / 100, "High"⟩

/-- The severity rank of a risk level, under `High > Medium > Low`. -/
def severityRank : String → ℕ
  | "Medium" => 1
  | "High" => 2
  | _ => 0

/-- The example reading after enrichment: `risk_score = 0.4925`,
`risk_level = "Medium"`. -/
def exampleEnrichedReading : PyVal :=
  PyVal.dict
    [("patient_id", PyVal.str "P1"), ("heart_rate", PyVal.num 100),
     ("spo2", PyVal.num 95), ("temperature", PyVal.num 37),
     ("bp_systolic", PyVal.num 120), ("bp_diastolic", PyVal.num 80),
     ("risk_score", PyVal.num (4925 / 10000)),
     ("risk_level", PyVal.str "Medium")]

/-- A record of unexpected shape: `spo2` holds a string, so the range
comparison inside the validator raises `TypeError`. -/
def strSpo2Record : PyVal :=
  PyVal.dict
    [("patient_id", PyVal.str "P1"), ("heart_rate", PyVal.num 80),
     ("spo2", PyVal.str "95"), ("temperature", PyVal.num 37),
     ("bp_systolic", PyVal.num 120), ("bp_diastolic", PyVal.num 80)]

/-! ### Dictionary lemmas -/

theorem getKey_eq_none_of_not_hasKey (l : List (String × PyVal)) (k : String)
    (h : hasKey l k = false) : getKey l k = Option.none := by
  induction l with
  | nil => rfl
  | cons p rest ih =>
      obtain ⟨k', v⟩ := p
      by_cases hk : k' = k
      · simp [hasKey, hk] at h
      · simp [hasKey, hk] at h
        simp [getKey, hk]
        exact ih h

theorem getKey_append_right (l : List (String × PyVal)) (k : String)
    (m : List (String × PyVal)) (h : getKey l k = Option.none) :
    getKey (l ++ m) k = getKey m k := by
  induction l with
  | nil => rfl
  | cons p rest ih =>
      obtain ⟨k', v⟩ := p
      by_cases hk : k' = k
      · simp [getKey, hk] at h
      · simp [getKey, hk] at h ⊢
        exact ih h

theorem getKey_map_overwrite (l : List (String × PyVal)) (k : String)
    (v : PyVal) (h : hasKey l k = true) :
    getKey (l.map (fun p => if p.1 = k then (k, v) else p)) k = some v := by
  induction l with
  | nil => simp [hasKey] at h
  | cons p rest ih =>
      obtain ⟨k', w⟩ := p
      simp only [List.map_cons]
      by_cases hk : k' = k
      · rw [if_pos (show (k', w).1 = k from hk)]
        simp [getKey]
      · rw [if_neg (show ¬(k', w).1 = k from hk)]
        simp [hasKey, hk] at h
        simp [getKey, hk]
        exact ih h

theorem getKey_map_overwrite_ne (l : List (String × PyVal)) (k k' : String)
    (v : PyVal) (h : k' ≠ k) :
    getKey (l.map (fun p => if p.1 = k then (k, v) else p)) k' =
      getKey l k' := by
  induction l with
  | nil => rfl
  | cons p rest ih =>
      obtain ⟨k₀, w⟩ := p
      simp only [List.map_cons]
      by_cases h0 : k₀ = k
      · rw [if_pos (show (k₀, w).1 = k from h0)]
        subst h0
        simp [getKey, Ne.symm h]
        exact ih
      · rw [if_neg (show ¬(k₀, w).1 = k from h0)]
        by_cases h1 : k₀ = k'
        · simp [getKey, h1]
        · simp [getKey, h1]
          exact ih

theorem getKey_setKey_self (l : List (String × PyVal)) (k : String)
    (v : PyVal) : getKey (setKey l k v) k = some v := by
  unfold setKey
  by_cases h : hasKey l k = true
  · rw [if_pos h]
    exact getKey_map_overwrite l k v h
  · rw [if_neg h]
    rw [Bool.not_eq_true] at h
    rw [getKey_append_right l k _ (getKey_eq_none_of_not_hasKey l k h)]
    simp [getKey]

theorem getKey_append_single_ne (l : List (String × PyVal)) (k k' : String)
    (v : PyVal) (h : k' ≠ k) : getKey (l ++ [(k, v)]) k' = getKey l k' := by
  induction l with
  | nil => simp [getKey, Ne.symm h]
  | cons p rest ih =>
      obtain ⟨k₀, w⟩ := p
      by_cases h1 : k₀ = k'
      · simp [getKey, h1]
      · simp [getKey, h1]
        exact ih

theorem getKey_setKey_ne (l : List (String × PyVal)) (k k' : String)
    (v : PyVal) (h : k' ≠ k) : getKey (setKey l k v) k' = getKey l k' := by
  unfold setKey
  by_cases hk : hasKey l k = true
  · rw [if_pos hk]
    exact getKey_map_overwrite_ne l k k' v h
  · rw [if_neg hk]
    exact getKey_append_single_ne l k k' v h

/-! ### Validator characterization -/

theorem isNone_eq_false_iff (v : PyVal) : isNone v = false ↔ v ≠ PyVal.none := by
  cases v <;> simp [isNone]

theorem isNone_eq_false_of_asNum (v : PyVal) (q : ℚ)
    (h : asNum v = some q) : isNone v = false := by
  cases v <;> first
    | rfl
    | simp [asNum] at h

theorem asNum_getKeyD_some (fields : List (String × PyVal)) (k : String)
    (q : ℚ) (h : asNum (getKeyD fields k) = some q) :
    ∃ v, getKey fields k = some v ∧ asNum v = some q := by
  cases hg : getKey fields k with
  | none =>
      rw [getKeyD, hg] at h
      simp [asNum] at h
  | some v =>
      rw [getKeyD, hg] at h
      exact ⟨v, rfl, h⟩

theorem checkRange_ok_true_iff (lo : ℚ) (strict : Bool) (v : PyVal) (hi : ℚ)
    (rest : Except Unit Bool) :
    checkRange lo strict v hi rest = Except.ok true ↔
      ∃ q, asNum v = some q ∧ (if strict then lo < q else lo ≤ q) ∧
        q ≤ hi ∧ rest = Except.ok true := by
  unfold checkRange
  cases h : asNum v with
  | none => simp
  | some q =>
      dsimp only
      by_cases hc : (if strict then lo < q else lo ≤ q) ∧ q ≤ hi
      · rw [if_pos hc]
        constructor
        · intro hrest
          exact ⟨q, rfl, hc.1, hc.2, hrest⟩
        · rintro ⟨q', hq', -, -, h3⟩
          exact h3
      · rw [if_neg hc]
        constructor
        · intro hfalse
          simp at hfalse
        · rintro ⟨q', hq', h1, h2, -⟩
          cases hq'
          exact absurd ⟨h1, h2⟩ hc

theorem is_valid_core_ok_true_iff (r : PyVal) :
    is_valid_core r = Except.ok true ↔ validRecordSpec r := by
  cases r with
  | dict fields =>
      constructor
      · intro h
        simp only [is_valid_core] at h
        by_cases hp : (isNone (getKeyD fields "patient_id") ||
            isNone (getKeyD fields "heart_rate") ||
            isNone (getKeyD fields "spo2") ||
            isNone (getKeyD fields "temperature") ||
            isNone (getKeyD fields "bp_systolic") ||
            isNone (getKeyD fields "bp_diastolic")) = true
        · rw [if_pos hp] at h
          simp at h
        · rw [if_neg hp] at h
          have hp1 : isNone (getKeyD fields "patient_id") = false := by
            by_contra hc
            rw [Bool.not_eq_false] at hc
            exact hp (by simp [hc])
          rw [checkRange_ok_true_iff] at h
          obtain ⟨spo2, hs, hs1, hs2, h⟩ := h
          rw [checkRange_ok_true_iff] at h
          obtain ⟨hr, hh, hh1, hh2, h⟩ := h
          rw [checkRange_ok_true_iff] at h
          obtain ⟨temp, ht, ht1, ht2, h⟩ := h
          rw [checkRange_ok_true_iff] at h
          obtain ⟨sys, hy, hy1, hy2, h⟩ := h
          rw [checkRange_ok_true_iff] at h
          obtain ⟨dia, hd, hd1, hd2, -⟩ := h
          exact ⟨fields, rfl, (isNone_eq_false_iff _).mp hp1,
            ⟨hr, hh, by simpa using hh1, hh2⟩,
            ⟨spo2, hs, by simpa using hs1, hs2⟩,
            ⟨temp, ht, by simpa using ht1, ht2⟩,
            ⟨sys, hy, by simpa using hy1, hy2⟩,
            ⟨dia, hd, by simpa using hd1, hd2⟩⟩
      · rintro ⟨fields', hf, hpid, ⟨hr, hh, hh1, hh2⟩, ⟨spo2, hs, hs1, hs2⟩,
          ⟨temp, ht, ht1, ht2⟩, ⟨sys, hy, hy1, hy2⟩, ⟨dia, hd, hd1, hd2⟩⟩
        cases hf
        have e1 := (isNone_eq_false_iff (getKeyD fields "patient_id")).mpr hpid
        have e2 := isNone_eq_false_of_asNum _ _ hh
        have e3 := isNone_eq_false_of_asNum _ _ hs
        have e4 := isNone_eq_false_of_asNum _ _ ht
        have e5 := isNone_eq_false_of_asNum _ _ hy
        have e6 := isNone_eq_false_of_asNum _ _ hd
        simp only [is_valid_core]
        rw [if_neg (by simp [e1, e2, e3, e4, e5, e6])]
        rw [checkRange_ok_true_iff]
        refine ⟨spo2, hs, by simpa using hs1, hs2, ?_⟩
        rw [checkRange_ok_true_iff]
        refine ⟨hr, hh, by simpa using hh1, hh2, ?_⟩
        rw [checkRange_ok_true_iff]
        refine ⟨temp, ht, by simpa using ht1, ht2, ?_⟩
        rw [checkRange_ok_true_iff]
        refine ⟨sys, hy, by simpa using hy1, hy2, ?_⟩
        rw [checkRange_ok_true_iff]
        exact ⟨dia, hd, by simpa using hd1, hd2, rfl⟩
  | none =>
      simp only [is_valid_core]
      constructor
      · intro h; cases h
      · rintro ⟨fields, hf, -⟩; cases hf
  | bool b =>
      simp only [is_valid_core]
      constructor
      · intro h; cases h
      · rintro ⟨fields, hf, -⟩; cases hf
  | num q =>
      simp only [is_valid_core]
      constructor
      · intro h; cases h
      · rintro ⟨fields, hf, -⟩; cases hf
  | str s =>
      simp only [is_valid_core]
      constructor
      · intro h; cases h
      · rintro ⟨fields, hf, -⟩; cases hf
  | list xs =>
      simp only [is_valid_core]
      constructor
      · intro h; cases h
      · rintro ⟨fields, hf, -⟩; cases hf

theorem is_valid_record_eq_true_iff (r : PyVal) :
    is_valid_record r = true ↔ is_valid_core r = Except.ok true := by
  unfold is_valid_record
  cases h : is_valid_core r with
  | ok b => cases b <;> simp
  | error e => simp

theorem is_valid_iff (r : PyVal) :
    is_valid_record r = true ↔ validRecordSpec r := by
  rw [is_valid_record_eq_true_iff]
  exact is_valid_core_ok_true_iff r

/-! ### Enricher characterization -/

theorem enrich_record_eq (fields : List (String × PyVal)) (hr temp spo2 : ℚ)
    (hh : asNum (getKeyD fields "heart_rate") = some hr)
    (ht : asNum (getKeyD fields "temperature") = some temp)
    (hs : asNum (getKeyD fields "spo2") = some spo2) :
    enrich_record (PyVal.dict fields) =
      Except.ok (PyVal.dict (setKey
        (setKey fields "risk_score" (PyVal.num
          ((hr / 200) * (2 / 5) + (temp / 40) * (3 / 10) +
            (1 - spo2 / 100) * (3 / 10))))
        "risk_level" (PyVal.str (risk_level_of
          ((hr / 200) * (2 / 5) + (temp / 40) * (3 / 10) +
            (1 - spo2 / 100) * (3 / 10)))))) := by
  obtain ⟨hv, hg1, ha1⟩ := asNum_getKeyD_some _ _ _ hh
  obtain ⟨tv, hg2, ha2⟩ := asNum_getKeyD_some _ _ _ ht
  obtain ⟨sv, hg3, ha3⟩ := asNum_getKeyD_some _ _ _ hs
  simp only [enrich_record, subscript, hg1, hg2, hg3, ha1, ha2, ha3, dictSet]
  by_cases c1 : (hr / 200) * (2 / 5) + (temp / 40) * (3 / 10) +
      (1 - spo2 / 100) * (3 / 10) < 3 / 10
  · rw [if_pos c1]
    simp [risk_level_of, c1, dictSet]
  · rw [if_neg c1]
    by_cases c2 : (hr / 200) * (2 / 5) + (temp / 40) * (3 / 10) +
        (1 - spo2 / 100) * (3 / 10) < 6 / 10
    · rw [if_pos c2]
      simp [risk_level_of, c1, c2, dictSet]
    · rw [if_neg c2]
      simp [risk_level_of, c1, c2, dictSet]

theorem enrich_result_score (fields : List (String × PyVal))
    (hr temp spo2 : ℚ)
    (hh : asNum (getKeyD fields "heart_rate") = some hr)
    (ht : asNum (getKeyD fields "temperature") = some temp)
    (hs : asNum (getKeyD fields "spo2") = some spo2) :
    resultNumField (enrich_record (PyVal.dict fields)) "risk_score" =
      some ((hr / 200) * (2 / 5) + (temp / 40) * (3 / 10) +
        (1 - spo2 / 100) * (3 / 10)) := by
  rw [enrich_record_eq fields hr temp spo2 hh ht hs]
  simp only [resultNumField, getNumField, subscript]
  rw [getKey_setKey_ne _ _ _ _ (by decide), getKey_setKey_self]
  rfl

theorem enrich_result_level (fields : List (String × PyVal))
    (hr temp spo2 : ℚ)
    (hh : asNum (getKeyD fields "heart_rate") = some hr)
    (ht : asNum (getKeyD fields "temperature") = some temp)
    (hs : asNum (getKeyD fields "spo2") = some spo2) :
    resultStrField (enrich_record (PyVal.dict fields)) "risk_level" =
      some (risk_level_of ((hr / 200) * (2 / 5) + (temp / 40) * (3 / 10) +
        (1 - spo2 / 100) * (3 / 10))) := by
  rw [enrich_record_eq fields hr temp spo2 hh ht hs]
  simp only [resultStrField, getStrField, subscript]
  rw [getKey_setKey_self]

/-- Bounds on the risk score over the validator's admissible ranges:
the minimum `0.39` is attained at `hr=60, temp=36, spo2=100`, and the
supremum `0.8325` is approached as `spo2 → 0`. -/
theorem riskScore_bounds (hr temp spo2 : ℚ)
    (h1 : 60 ≤ hr) (h2 : hr ≤ 120) (h3 : 36 ≤ temp) (h4 : temp ≤ 39)
    (h5 : 0 < spo2) (h6 : spo2 ≤ 100) :
    39 / 100 ≤ (hr / 200) * (2 / 5) + (temp / 40) * (3 / 10) +
        (1 - spo2 / 100) * (3 / 10) ∧
      (hr / 200) * (2 / 5) + (temp / 40) * (3 / 10) +
        (1 - spo2 / 100) * (3 / 10) < 8325 / 10000 := by
  constructor <;> linarith

/-! ### Aggregator characterization -/

theorem subscript_toPy_heart_rate (e : Enriched) :
    subscript (Enriched.toPy e) "heart_rate" =
      Except.ok (PyVal.num e.heart_rate) := by
  simp +decide [Enriched.toPy, subscript, getKey]

theorem subscript_toPy_spo2 (e : Enriched) :
    subscript (Enriched.toPy e) "spo2" =
      Except.ok (PyVal.num e.spo2) := by
  simp +decide [Enriched.toPy, subscript, getKey]

theorem subscript_toPy_temperature (e : Enriched) :
    subscript (Enriched.toPy e) "temperature" =
      Except.ok (PyVal.num e.temperature) := by
  simp +decide [Enriched.toPy, subscript, getKey]

theorem subscript_toPy_bp_systolic (e : Enriched) :
    subscript (Enriched.toPy e) "bp_systolic" =
      Except.ok (PyVal.num e.bp_systolic) := by
  simp +decide [Enriched.toPy, subscript, getKey]

theorem subscript_toPy_bp_diastolic (e : Enriched) :
    subscript (Enriched.toPy e) "bp_diastolic" =
      Except.ok (PyVal.num e.bp_diastolic) := by
  simp +decide [Enriched.toPy, subscript, getKey]

theorem subscript_toPy_risk_level (e : Enriched) :
    subscript (Enriched.toPy e) "risk_level" =
      Except.ok (PyVal.str e.risk_level) := by
  simp +decide [Enriched.toPy, subscript, getKey]

theorem sumField_map (l : List Enriched) (k : String) (f : Enriched → ℚ)
    (h : ∀ e, subscript (Enriched.toPy e) k = Except.ok (PyVal.num (f e))) :
    sumField (l.map Enriched.toPy) k = Except.ok (l.map f).sum := by
  induction l with
  | nil => rfl
  | cons e rest ih =>
      simp only [List.map_cons, sumField, h e, asNum, ih, List.sum_cons]

theorem listField_map_risk_level (l : List Enriched) :
    listField (l.map Enriched.toPy) "risk_level" =
      Except.ok (l.map (fun e => PyVal.str e.risk_level)) := by
  induction l with
  | nil => rfl
  | cons e rest ih =>
      simp only [List.map_cons, listField, subscript_toPy_risk_level, ih]

theorem any_pyEqStr_map (l : List Enriched) (s : String) :
    ((l.map (fun e => PyVal.str e.risk_level)).any
        (fun v => pyEqStr v s)) = true ↔
      s ∈ l.map (fun e => e.risk_level) := by
  induction l with
  | nil => simp
  | cons e rest ih =>
      simp only [List.map_cons, List.any_cons, Bool.or_eq_true,
        List.mem_cons]
      constructor
      · rintro (h | h)
        · exact Or.inl (of_decide_eq_true h).symm
        · exact Or.inr (ih.mp h)
      · rintro (h | h)
        · exact Or.inl (decide_eq_true h.symm)
        · exact Or.inr (ih.mpr h)

theorem maxSeverity_cast (l : List Enriched) :
    (if ((l.map (fun e => PyVal.str e.risk_level)).any
          (fun v => pyEqStr v "High")) = true then "High"
      else if ((l.map (fun e => PyVal.str e.risk_level)).any
          (fun v => pyEqStr v "Medium")) = true then "Medium"
      else "Low") = maxSeverity (l.map (fun e => e.risk_level)) := by
  unfold maxSeverity
  by_cases m1 : "High" ∈ l.map (fun e => e.risk_level)
  · rw [if_pos ((any_pyEqStr_map l "High").mpr m1), if_pos m1]
  · rw [if_neg (fun hc => m1 ((any_pyEqStr_map l "High").mp hc)),
      if_neg m1]
    by_cases m2 : "Medium" ∈ l.map (fun e => e.risk_level)
    · rw [if_pos ((any_pyEqStr_map l "Medium").mpr m2), if_pos m2]
    · rw [if_neg (fun hc => m2 ((any_pyEqStr_map l "Medium").mp hc)),
        if_neg m2]

theorem aggregated_records_enriched (pid : PyVal) (l : List Enriched)
    (h : l ≠ []) :
    aggregated_records (pid, l.map Enriched.toPy) = Except.ok (PyVal.dict
      [("patient_id", pid),
       ("count", PyVal.num (l.length : ℚ)),
       ("avg_heart_rate",
         PyVal.num ((l.map (fun e => e.heart_rate)).sum / (l.length : ℚ))),
       ("avg_spo2",
         PyVal.num ((l.map (fun e => e.spo2)).sum / (l.length : ℚ))),
       ("avg_temperature",
         PyVal.num ((l.map (fun e => e.temperature)).sum / (l.length : ℚ))),
       ("avg_bp_systolic",
         PyVal.num ((l.map (fun e => e.bp_systolic)).sum / (l.length : ℚ))),
       ("avg_bp_diastolic",
         PyVal.num ((l.map (fun e => e.bp_diastolic)).sum / (l.length : ℚ))),
       ("risk_level",
         PyVal.str (maxSeverity (l.map (fun e => e.risk_level))))]) := by
  simp only [aggregated_records,
    sumField_map l "heart_rate" _ subscript_toPy_heart_rate,
    sumField_map l "spo2" _ subscript_toPy_spo2,
    sumField_map l "temperature" _ subscript_toPy_temperature,
    sumField_map l "bp_systolic" _ subscript_toPy_bp_systolic,
    sumField_map l "bp_diastolic" _ subscript_toPy_bp_diastolic,
    listField_map_risk_level, List.length_map]
  rw [if_neg (by simpa using h)]
  rw [← maxSeverity_cast l]

theorem getKeyD_setKey_ne (l : List (String × PyVal)) (k k' : String)
    (v : PyVal) (h : k' ≠ k) : getKeyD (setKey l k v) k' = getKeyD l k' := by
  unfold getKeyD
  rw [getKey_setKey_ne l k k' v h]

/-- Re-enriching an already-enriched record recomputes the same
`risk_score` and `risk_level`: the second call reads the untouched vital
fields, so it stores the same derived values again. -/
theorem enrich_record_idem_obs (fields : List (String × PyVal))
    (hr temp spo2 : ℚ)
    (hh : asNum (getKeyD fields "heart_rate") = some hr)
    (ht : asNum (getKeyD fields "temperature") = some temp)
    (hs : asNum (getKeyD fields "spo2") = some spo2)
    (r' : PyVal) (hfirst : enrich_record (PyVal.dict fields) = Except.ok r') :
    resultNumField (enrich_record r') "risk_score" =
        getNumField r' "risk_score" ∧
      resultStrField (enrich_record r') "risk_level" =
        getStrField r' "risk_level" := by
  rw [enrich_record_eq fields hr temp spo2 hh ht hs] at hfirst
  have hr' := (Except.ok.inj hfirst).symm
  subst hr'
  have hh2 : asNum (getKeyD (setKey
      (setKey fields "risk_score" (PyVal.num
        ((hr / 200) * (2 / 5) + (temp / 40) * (3 / 10) +
          (1 - spo2 / 100) * (3 / 10))))
      "risk_level" (PyVal.str (risk_level_of
        ((hr / 200) * (2 / 5) + (temp / 40) * (3 / 10) +
          (1 - spo2 / 100) * (3 / 10))))) "heart_rate") = some hr := by
    rw [getKeyD_setKey_ne _ _ _ _ (by decide),
      getKeyD_setKey_ne _ _ _ _ (by decide)]
    exact hh
  have ht2 : asNum (getKeyD (setKey
      (setKey fields "risk_score" (PyVal.num
        ((hr / 200) * (2 / 5) + (temp / 40) * (3 / 10) +
          (1 - spo2 / 100) * (3 / 10))))
      "risk_level" (PyVal.str (risk_level_of
        ((hr / 200) * (2 / 5) + (temp / 40) * (3 / 10) +
          (1 - spo2 / 100) * (3 / 10))))) "temperature") = some temp := by
    rw [getKeyD_setKey_ne _ _ _ _ (by decide),
      getKeyD_setKey_ne _ _ _ _ (by decide)]
    exact ht
  have hs2 : asNum (getKeyD (setKey
      (setKey fields "risk_score" (PyVal.num
        ((hr / 200) * (2 / 5) + (temp / 40) * (3 / 10) +
          (1 - spo2 / 100) * (3 / 10))))
      "risk_level" (PyVal.str (risk_level_of
        ((hr / 200) * (2 / 5) + (temp / 40) * (3 / 10) +
          (1 - spo2 / 100) * (3 / 10))))) "spo2") = some spo2 := by
    rw [getKeyD_setKey_ne _ _ _ _ (by decide),
      getKeyD_setKey_ne _ _ _ _ (by decide)]
    exact hs
  constructor
  · rw [enrich_result_score _ hr temp spo2 hh2 ht2 hs2]
    rw [getNumField, subscript]
    rw [getKey_setKey_ne _ _ _ _ (by decide), getKey_setKey_self]
    rfl
  · rw [enrich_result_level _ hr temp spo2 hh2 ht2 hs2]
    rw [getStrField, subscript]
    rw [getKey_setKey_self]

/-- The most severe level of a group is invariant under permutation of
the group. -/
theorem maxSeverity_perm (l l' : List Enriched) (hp : l.Perm l') :
    maxSeverity (l.map (fun e => e.risk_level)) =
      maxSeverity (l'.map (fun e => e.risk_level)) := by
  have hm : ∀ s : String, s ∈ l.map (fun e => e.risk_level) ↔
      s ∈ l'.map (fun e => e.risk_level) :=
    fun s => (hp.map (fun e => e.risk_level)).mem_iff
  unfold maxSeverity
  by_cases m1 : "High" ∈ l.map (fun e => e.risk_level)
  · rw [if_pos m1, if_pos ((hm "High").mp m1)]
  · rw [if_neg m1, if_neg (fun hc => m1 ((hm "High").mpr hc))]
    by_cases m2 : "Medium" ∈ l.map (fun e => e.risk_level)
    · rw [if_pos m2, if_pos ((hm "Medium").mp m2)]
    · rw [if_neg m2, if_neg (fun hc => m2 ((hm "Medium").mpr hc))]

/-- Filtering distributes over bundle concatenation. -/
theorem valid_records_append (a b : List (Except Unit PyVal)) :
    valid_records (a ++ b) = valid_records a ++ valid_records b := by
  simp [valid_records]

/-- A message whose parse failed contributes nothing past the filter. -/
theorem valid_records_error_singleton (e : Unit) :
    valid_records [Except.error e] = [] := rfl

/-! ### Bucketing lemmas -/

theorem risk_level_of_eq_low (q : ℚ) :
    risk_level_of q = "Low" ↔ q < 3 / 10 := by
  unfold risk_level_of
  by_cases c1 : q < 3 / 10
  · simp [c1]
  · rw [if_neg c1]
    by_cases c2 : q < 6 / 10
    · simp [c1, c2]
    · simp [c1, c2]

theorem risk_level_of_eq_medium (q : ℚ) :
    risk_level_of q = "Medium" ↔ 3 / 10 ≤ q ∧ q < 6 / 10 := by
  unfold risk_level_of
  by_cases c1 : q < 3 / 10
  · simp [c1, not_le.mpr c1]
  · rw [if_neg c1]
    by_cases c2 : q < 6 / 10
    · simp [not_lt.mp c1, c2]
    · simp [not_lt.mp c1, c2]

theorem risk_level_of_eq_high (q : ℚ) :
    risk_level_of q = "High" ↔ 6 / 10 ≤ q := by
  unfold risk_level_of
  by_cases c1 : q < 3 / 10
  · have h6 : q < 6 / 10 := lt_trans c1 (by norm_num)
    simp [c1, not_le.mpr h6]
  · rw [if_neg c1]
    by_cases c2 : q < 6 / 10
    · simp [c2, not_le.mpr c2]
    · simp [c2, not_lt.mp c2]

theorem severityRank_mono (q1 q2 : ℚ) (h : q1 ≤ q2) :
    severityRank (risk_level_of q1) ≤ severityRank (risk_level_of q2) := by
  unfold risk_level_of
  by_cases a1 : q1 < 3 / 10
  · rw [if_pos a1]
    by_cases b1 : q2 < 3 / 10
    · rw [if_pos b1]
    · rw [if_neg b1]
      by_cases b2 : q2 < 6 / 10
      · rw [if_pos b2]
        simp [severityRank]
      · rw [if_neg b2]
        simp [severityRank]
  · rw [if_neg a1]
    have b1 : ¬q2 < 3 / 10 := fun hc => a1 (lt_of_le_of_lt h hc)
    rw [if_neg b1]
    by_cases a2 : q1 < 6 / 10
    · rw [if_pos a2]
      by_cases b2 : q2 < 6 / 10
      · rw [if_pos b2]
      · rw [if_neg b2]
        simp [severityRank]
    · rw [if_neg a2]
      have b2 : ¬q2 < 6 / 10 := fun hc => a2 (lt_of_le_of_lt h hc)
      rw [if_neg b2]
/-! ### Claims -/

/-- Claim C1: `is_valid_record` answers `true` exactly when the record is
a dict whose six required fields are present and non-null and whose
numeric ranges `0 < spo2 ≤ 100`, `60 ≤ heart_rate ≤ 120`,
`36 ≤ temperature ≤ 39`, `90 ≤ bp_systolic ≤ 140`,
`60 ≤ bp_diastolic ≤ 90` all hold; with all other fields nominal,
`spo2 = 0` and `spo2 = 100.0001` are rejected while `spo2 = 100` and
`spo2 = 0.0001` are accepted. -/
theorem claim_C1_validator_ranges :
    (∀ r : PyVal, is_valid_record r = true ↔ validRecordSpec r) ∧
    is_valid_record (nominalRecord 0) = false ∧
    is_valid_record (nominalRecord (1000001 / 10000)) = false ∧
    is_valid_record (nominalRecord 100) = true ∧
    is_valid_record (nominalRecord (1 / 10000)) = true := by
  refine ⟨is_valid_iff, by decide, ?_, by decide, ?_⟩
  · simp +decide [nominalRecord, is_valid_record, is_valid_core, getKeyD,
      getKey, checkRange, asNum, isNone]
    norm_num
  · simp +decide [nominalRecord, is_valid_record, is_valid_core, getKeyD,
      getKey, checkRange, asNum, isNone]
    norm_num

/-- Claim C2: on every record that passed validation, the enricher
stores `risk_score = (heart_rate/200)*0.4 + (temperature/40)*0.3 +
(1 - spo2/100)*0.3` exactly. -/
theorem claim_C2_risk_score_formula (r : PyVal)
    (hvalid : is_valid_record r = true) :
    ∃ (fields : List (String × PyVal)) (hr temp spo2 : ℚ),
      r = PyVal.dict fields ∧
      asNum (getKeyD fields "heart_rate") = some hr ∧
      asNum (getKeyD fields "temperature") = some temp ∧
      asNum (getKeyD fields "spo2") = some spo2 ∧
      resultNumField (enrich_record r) "risk_score" =
        some ((hr / 200) * (2 / 5) + (temp / 40) * (3 / 10) +
          (1 - spo2 / 100) * (3 / 10)) := by
  obtain ⟨fields, rfl, -, ⟨hr, hh, -, -⟩, ⟨spo2, hsp, -, -⟩,
    ⟨temp, htm, -, -⟩, -, -⟩ := (is_valid_iff r).mp hvalid
  exact ⟨fields, hr, temp, spo2, rfl, hh, htm, hsp,
    enrich_result_score fields hr temp spo2 hh htm hsp⟩

/-- Claim C2 witness: at `heart_rate=100, temperature=37, spo2=95` the
record is valid, the formula applies, the stored `risk_score` is exactly
`0.4925` and the `risk_level` is `"Medium"`. -/
theorem claim_C2_witness :
    is_valid_record exampleReading = true ∧
    (∃ (fields : List (String × PyVal)) (hr temp spo2 : ℚ),
      exampleReading = PyVal.dict fields ∧
      asNum (getKeyD fields "heart_rate") = some hr ∧
      asNum (getKeyD fields "temperature") = some temp ∧
      asNum (getKeyD fields "spo2") = some spo2 ∧
      resultNumField (enrich_record exampleReading) "risk_score" =
        some ((hr / 200) * (2 / 5) + (temp / 40) * (3 / 10) +
          (1 - spo2 / 100) * (3 / 10))) ∧
    resultNumField (enrich_record exampleReading) "risk_score" =
      some (4925 / 10000) ∧
    resultStrField (enrich_record exampleReading) "risk_level" =
      some "Medium" := by
  refine ⟨by decide, claim_C2_risk_score_formula exampleReading (by decide),
    ?_, ?_⟩
  · simp +decide only [exampleReading, enrich_record, subscript, getKey,
      asNum, dictSet, setKey, hasKey, resultNumField, getNumField]
    norm_num
    simp +decide [getKey]
  · simp +decide only [exampleReading, enrich_record, subscript, getKey,
      asNum, dictSet, setKey, hasKey, resultStrField, getStrField]
    norm_num
    simp +decide [getKey]

/-- Claim C3: the enricher's stored `risk_level` is the first-match-wins
bucketing of the stored `risk_score` — `"Low"` iff `score < 0.3`,
`"Medium"` iff `0.3 ≤ score < 0.6`, `"High"` iff `0.6 ≤ score` — and the
bucketing is a deterministic, monotone function of the score. -/
theorem claim_C3_bucketing :
    (∀ r : PyVal, is_valid_record r = true →
      ∃ q : ℚ, resultNumField (enrich_record r) "risk_score" = some q ∧
        resultStrField (enrich_record r) "risk_level" =
          some (risk_level_of q)) ∧
    (∀ q : ℚ, (risk_level_of q = "Low" ↔ q < 3 / 10) ∧
      (risk_level_of q = "Medium" ↔ 3 / 10 ≤ q ∧ q < 6 / 10) ∧
      (risk_level_of q = "High" ↔ 6 / 10 ≤ q)) ∧
    (∀ q1 q2 : ℚ, q1 ≤ q2 →
      severityRank (risk_level_of q1) ≤ severityRank (risk_level_of q2)) := by
  refine ⟨?_, fun q => ⟨risk_level_of_eq_low q, risk_level_of_eq_medium q,
    risk_level_of_eq_high q⟩, severityRank_mono⟩
  intro r hvalid
  obtain ⟨fields, rfl, -, ⟨hr, hh, -, -⟩, ⟨spo2, hsp, -, -⟩,
    ⟨temp, htm, -, -⟩, -, -⟩ := (is_valid_iff r).mp hvalid
  exact ⟨_, enrich_result_score fields hr temp spo2 hh htm hsp,
    enrich_result_level fields hr temp spo2 hh htm hsp⟩

/-- Claim C3 witness: the bucketing evaluated on the worked example and
on concrete scores on both sides of each boundary. -/
theorem claim_C3_witness :
    is_valid_record exampleReading = true ∧
    (∃ q : ℚ, resultNumField (enrich_record exampleReading) "risk_score" =
        some q ∧
      resultStrField (enrich_record exampleReading) "risk_level" =
        some (risk_level_of q)) ∧
    (1 : ℚ) / 4 ≤ (1 : ℚ) / 2 ∧
    severityRank (risk_level_of (1 / 4)) ≤ severityRank (risk_level_of (1 / 2)) := by
  refine ⟨by decide, claim_C3_bucketing.1 exampleReading (by decide),
    by norm_num, claim_C3_bucketing.2.2 (1 / 4) (1 / 2) (by norm_num)⟩
/-- Claim C4: on a non-empty group of enriched records sharing a patient
key, the aggregator returns the group size as `count`, the arithmetic
mean (sum over count) of each of the five vital fields, and the most
severe risk level present under `High > Medium > Low`. -/
theorem claim_C4_aggregate_summary (pid : PyVal) (l : List Enriched)
    (h : l ≠ []) :
    aggregated_records (pid, l.map Enriched.toPy) = Except.ok (PyVal.dict
      [("patient_id", pid),
       ("count", PyVal.num (l.length : ℚ)),
       ("avg_heart_rate",
         PyVal.num ((l.map (fun e => e.heart_rate)).sum / (l.length : ℚ))),
       ("avg_spo2",
         PyVal.num ((l.map (fun e => e.spo2)).sum / (l.length : ℚ))),
       ("avg_temperature",
         PyVal.num ((l.map (fun e => e.temperature)).sum / (l.length : ℚ))),
       ("avg_bp_systolic",
         PyVal.num ((l.map (fun e => e.bp_systolic)).sum / (l.length : ℚ))),
       ("avg_bp_diastolic",
         PyVal.num ((l.map (fun e => e.bp_diastolic)).sum / (l.length : ℚ))),
       ("risk_level",
         PyVal.str (maxSeverity (l.map (fun e => e.risk_level))))]) :=
  aggregated_records_enriched pid l h

/-- Claim C4 witness: the two-record group with heart rates `[80, 100]`
and risk levels `[Low, High]` aggregates to `count = 2`,
`avg_heart_rate = 90`, `risk_level = "High"`. -/
theorem claim_C4_witness :
    ([exampleEnrichedLow, exampleEnrichedHigh] : List Enriched) ≠ [] ∧
    aggregated_records (PyVal.str "P1",
        List.map Enriched.toPy [exampleEnrichedLow, exampleEnrichedHigh]) =
      Except.ok (PyVal.dict
        [("patient_id", PyVal.str "P1"),
         ("count", PyVal.num 2),
         ("avg_heart_rate", PyVal.num 90),
         ("avg_spo2", PyVal.num 95),
         ("avg_temperature", PyVal.num 37),
         ("avg_bp_systolic", PyVal.num 120),
         ("avg_bp_diastolic", PyVal.num 80),
         ("risk_level", PyVal.str "High")]) := by
  refine ⟨by simp, ?_⟩
  rw [claim_C4_aggregate_summary (PyVal.str "P1")
    [exampleEnrichedLow, exampleEnrichedHigh] (by simp)]
  norm_num [exampleEnrichedLow, exampleEnrichedHigh, maxSeverity]

/-- Claim C5 counterexample: a byte message whose payload is not valid
UTF-8 makes the bronze `Decode to String` stage raise — the bundle
fails instead of a null record being produced and dropped — so the
claim that the decoder never raises on *any* malformed incoming byte
message is false of the source. -/
theorem claim_C5_counterexample :
    decode_stage [malformedBytesMsg] = Except.error () ∧
    malformedBytesMsg.decodeUtf8 = Except.error () :=
  ⟨rfl, rfl⟩

/-- Claim C5 (amended): for every byte message whose payload decodes as
UTF-8 (the bundle survives `decode_stage`), the decoder never raises:
any `json.loads` failure becomes `None`, `None` is rejected by the
validity filter, and a failed-parse message contributes nothing to the
filtered or enriched silver streams.  A non-UTF-8 payload instead
raises an uncaught `UnicodeDecodeError` at the bronze decode stage. -/
theorem claim_C5_decoder_drops :
    (∀ e : Unit, parse_json (Except.error e) = PyVal.none) ∧
    is_valid_record PyVal.none = false ∧
    (∀ (msgs : List RawMessage)
      (loads l1 l2 : List (Except Unit PyVal)) (e : Unit),
      decode_stage msgs = Except.ok loads →
      loads = l1 ++ Except.error e :: l2 →
      valid_records loads = valid_records (l1 ++ l2) ∧
      silver_records loads = silver_records (l1 ++ l2)) := by
  refine ⟨fun e => rfl, rfl,
    fun msgs loads l1 l2 e hdec hsplit => ?_⟩
  subst hsplit
  have hv : valid_records (l1 ++ Except.error e :: l2) =
      valid_records (l1 ++ l2) := by
    simp only [valid_records, List.map_append, List.map_cons,
      List.filter_append, List.filter_cons]
    rw [show is_valid_record (parse_json (Except.error e)) = false from rfl]
    simp
  exact ⟨hv, by simp only [silver_records, hv]⟩

/-- Claim C5 witness: a two-message bundle that decodes as UTF-8, whose
first message fails `json.loads`: the silver streams equal those of the
bundle without the failed message. -/
theorem claim_C5_witness :
    decode_stage [⟨Except.ok (Except.error ())⟩,
        ⟨Except.ok (Except.ok exampleReading)⟩] =
      Except.ok [Except.error (), Except.ok exampleReading] ∧
    ([Except.error (), Except.ok exampleReading] :
        List (Except Unit PyVal)) =
      [] ++ Except.error () :: [Except.ok exampleReading] ∧
    valid_records [Except.error (), Except.ok exampleReading] =
      valid_records ([] ++ [Except.ok exampleReading]) ∧
    silver_records [Except.error (), Except.ok exampleReading] =
      silver_records ([] ++ [Except.ok exampleReading]) := by
  refine ⟨rfl, rfl, ?_⟩
  exact claim_C5_decoder_drops.2.2
    [⟨Except.ok (Except.error ())⟩, ⟨Except.ok (Except.ok exampleReading)⟩]
    [Except.error (), Except.ok exampleReading]
    [] [Except.ok exampleReading] () rfl rfl

/-- Claim C6: on a non-empty group, the aggregate depends only on the
multiset of members — permuting the group yields an identical summary. -/
theorem claim_C6_order_independent (pid : PyVal) (l l' : List Enriched)
    (hp : l.Perm l') (h : l ≠ []) :
    aggregated_records (pid, l.map Enriched.toPy) =
      aggregated_records (pid, l'.map Enriched.toPy) := by
  have h' : l' ≠ [] := by
    intro hc
    subst hc
    exact h hp.eq_nil
  rw [aggregated_records_enriched pid l h,
    aggregated_records_enriched pid l' h']
  rw [hp.length_eq, (hp.map (fun e => e.heart_rate)).sum_eq,
    (hp.map (fun e => e.spo2)).sum_eq,
    (hp.map (fun e => e.temperature)).sum_eq,
    (hp.map (fun e => e.bp_systolic)).sum_eq,
    (hp.map (fun e => e.bp_diastolic)).sum_eq,
    maxSeverity_perm l l' hp]

/-- Claim C6 witness: swapping the two members of the example group
leaves the aggregate unchanged. -/
theorem claim_C6_witness :
    aggregated_records (PyVal.str "P1",
        List.map Enriched.toPy [exampleEnrichedLow, exampleEnrichedHigh]) =
      aggregated_records (PyVal.str "P1",
        List.map Enriched.toPy [exampleEnrichedHigh, exampleEnrichedLow]) :=
  claim_C6_order_independent (PyVal.str "P1") _ _
    (List.Perm.swap exampleEnrichedHigh exampleEnrichedLow []) (by simp)

/-- Claim C7 counterexample: `enrich_record` assigns `risk_score` and
`risk_level` into its argument dict in place and returns that same
object, so the input Reading's post-call state is the returned record;
at the worked example that state differs from the pre-call input (the
derived keys were absent) — the input Reading *is* modified, refuting
the claim's non-modification conjunct. -/
theorem claim_C7_counterexample :
    enrich_record exampleReading = Except.ok exampleEnrichedReading ∧
    exampleEnrichedReading ≠ exampleReading := by
  constructor
  · simp +decide only [exampleReading, exampleEnrichedReading, enrich_record,
      subscript, getKey, asNum, dictSet, setKey, hasKey]
    norm_num
  · intro h
    have hc := congrArg (fun v => getStrField v "risk_level") h
    simp +decide [exampleEnrichedReading, exampleReading, getStrField,
      subscript, getKey] at hc

/-- Claim C7 (amended): the enricher is deterministic and idempotent —
equal input values give equal outputs, and re-enriching the record it
produced stores the same `risk_score` and `risk_level` again on valid
readings.  It is not free of side effects: the source mutates the input
dict in place (see the C7 counterexample), returning the mutated
object. -/
theorem claim_C7_enricher_pure :
    (∀ r s : PyVal, r = s → enrich_record r = enrich_record s) ∧
    (∀ r r' : PyVal, is_valid_record r = true →
      enrich_record r = Except.ok r' →
      resultNumField (enrich_record r') "risk_score" =
          getNumField r' "risk_score" ∧
        resultStrField (enrich_record r') "risk_level" =
          getStrField r' "risk_level") := by
  refine ⟨fun r s h => by rw [h], fun r r' hv hfirst => ?_⟩
  obtain ⟨fields, rfl, -, ⟨hr, hh, -, -⟩, ⟨spo2, hsp, -, -⟩,
    ⟨temp, htm, -, -⟩, -, -⟩ := (is_valid_iff r).mp hv
  exact enrich_record_idem_obs fields hr temp spo2 hh htm hsp r' hfirst

/-- Claim C7 witness: enriching the worked example yields the enriched
record, and enriching that output again recomputes the same
`risk_score = 0.4925` and `risk_level = "Medium"`. -/
theorem claim_C7_witness :
    is_valid_record exampleReading = true ∧
    enrich_record exampleReading = Except.ok exampleEnrichedReading ∧
    (resultNumField (enrich_record exampleEnrichedReading) "risk_score" =
        getNumField exampleEnrichedReading "risk_score" ∧
      resultStrField (enrich_record exampleEnrichedReading) "risk_level" =
        getStrField exampleEnrichedReading "risk_level") := by
  have h1 : is_valid_record exampleReading = true := by decide
  have h2 : enrich_record exampleReading = Except.ok exampleEnrichedReading := by
    simp +decide only [exampleReading, exampleEnrichedReading, enrich_record,
      subscript, getKey, asNum, dictSet, setKey, hasKey]
    norm_num
  exact ⟨h1, h2,
    claim_C7_enricher_pure.2 exampleReading exampleEnrichedReading h1 h2⟩
/-- Claim C8: the validator is total and never propagates an error — it
answers `false` for `None`, and whenever the body of its `try` block
raises (field access on a non-dict shape, or a range comparison against
a non-numeric value), the wrapper answers `false` instead of raising. -/
theorem claim_C8_validator_total :
    is_valid_record PyVal.none = false ∧
    (∀ r : PyVal, is_valid_core r = Except.error () →
      is_valid_record r = false) ∧
    is_valid_record (PyVal.str "oops") = false ∧
    is_valid_record (PyVal.list []) = false ∧
    is_valid_record strSpo2Record = false := by
  refine ⟨rfl, fun r h => ?_, by decide, by decide, by decide⟩
  simp only [is_valid_record, h]

/-- Claim C8 witness: on a record whose `spo2` is a string, the body
raises (`TypeError` in the range comparison) and the validator answers
`false`. -/
theorem claim_C8_witness :
    is_valid_core strSpo2Record = Except.error () ∧
    is_valid_record strSpo2Record = false :=
  ⟨rfl, claim_C8_validator_total.2.1 strSpo2Record rfl⟩

/-- Claim C9: on every record that passes validation, the enricher's
`risk_score` lies in `[0, 1]`. -/
theorem claim_C9_score_unit_interval (r : PyVal)
    (hvalid : is_valid_record r = true) :
    ∃ q : ℚ, resultNumField (enrich_record r) "risk_score" = some q ∧
      0 ≤ q ∧ q ≤ 1 := by
  obtain ⟨fields, rfl, -, ⟨hr, hh, hh1, hh2⟩, ⟨spo2, hsp, hs1, hs2⟩,
    ⟨temp, htm, ht1, ht2⟩, -, -⟩ := (is_valid_iff r).mp hvalid
  obtain ⟨hlo, hhi⟩ := riskScore_bounds hr temp spo2 hh1 hh2 ht1 ht2 hs1 hs2
  exact ⟨_, enrich_result_score fields hr temp spo2 hh htm hsp,
    by linarith, by linarith⟩

/-- Claim C9 witness: the worked example is valid and its score lies in
`[0, 1]`. -/
theorem claim_C9_witness :
    is_valid_record exampleReading = true ∧
    (∃ q : ℚ, resultNumField (enrich_record exampleReading) "risk_score" =
        some q ∧ 0 ≤ q ∧ q ≤ 1) :=
  ⟨by decide, claim_C9_score_unit_interval exampleReading (by decide)⟩

/-- Claim C10: on every record that passes validation the `risk_score`
is at least `0.39`, so the stored `risk_level` is never `"Low"` — the
`"Low"` bucket is unreachable through the validated (silver/gold)
paths. -/
theorem claim_C10_no_low_level (r : PyVal)
    (hvalid : is_valid_record r = true) :
    ∃ q : ℚ, resultNumField (enrich_record r) "risk_score" = some q ∧
      39 / 100 ≤ q ∧
      (resultStrField (enrich_record r) "risk_level" = some "Medium" ∨
        resultStrField (enrich_record r) "risk_level" = some "High") := by
  obtain ⟨fields, rfl, -, ⟨hr, hh, hh1, hh2⟩, ⟨spo2, hsp, hs1, hs2⟩,
    ⟨temp, htm, ht1, ht2⟩, -, -⟩ := (is_valid_iff r).mp hvalid
  obtain ⟨hlo, -⟩ := riskScore_bounds hr temp spo2 hh1 hh2 ht1 ht2 hs1 hs2
  have hl := enrich_result_level fields hr temp spo2 hh htm hsp
  refine ⟨_, enrich_result_score fields hr temp spo2 hh htm hsp, hlo, ?_⟩
  have hnotlow : ¬((hr / 200) * (2 / 5) + (temp / 40) * (3 / 10) +
      (1 - spo2 / 100) * (3 / 10)) < 3 / 10 := by linarith
  by_cases c2 : ((hr / 200) * (2 / 5) + (temp / 40) * (3 / 10) +
      (1 - spo2 / 100) * (3 / 10)) < 6 / 10
  · left
    rw [hl]
    unfold risk_level_of
    rw [if_neg hnotlow, if_pos c2]
  · right
    rw [hl]
    unfold risk_level_of
    rw [if_neg hnotlow, if_neg c2]

/-- Claim C10 witness: the worked example is valid, its score is at
least `0.39`, and its level is `"Medium"` or `"High"`. -/
theorem claim_C10_witness :
    is_valid_record exampleReading = true ∧
    (∃ q : ℚ, resultNumField (enrich_record exampleReading) "risk_score" =
        some q ∧ 39 / 100 ≤ q ∧
      (resultStrField (enrich_record exampleReading) "risk_level" =
          some "Medium" ∨
        resultStrField (enrich_record exampleReading) "risk_level" =
          some "High")) :=
  ⟨by decide, claim_C10_no_low_level exampleReading (by decide)⟩
